import Mathlib

/-!
Shallow embedding of the bank-connection subsystem of the apps-sdk template:
the `plaid_items` table (src/unnamed/part_000), the Plaid service wrappers
(src/lib/services/plaid-service.ts), the connect-bank server actions
(src/app/connect-bank/actions.ts), the alternative server actions
(src/unnamed/part_003) and the ephemeral session cache
(src/lib/services/session-service.ts).

External collaborators (the OAuth session authority, the Plaid client, the
database connection, the email sender) are modelled as environment fields;
a JavaScript `throw` from a collaborator or from the database is modelled as
an `Except`-error carrying the thrown `Error`'s `message`, matching the
catch-all handlers in actions.ts which return `error.message` to the caller.
-/

namespace BankConnect

/-! ### String-containment helpers -/

/-- Does `hay` start with `needle` (on character lists)? -/
def startsWithL : List Char → List Char → Bool
  | [], _ => true
  | _ :: _, [] => false
  | a :: as, b :: bs => a == b && startsWithL as bs

/-- Does `hay` contain `needle` as a contiguous substring (on character lists)? -/
def containsL (needle : List Char) : List Char → Bool
  | [] => needle.isEmpty
  | b :: bs => startsWithL needle (b :: bs) || containsL needle bs

theorem startsWithL_self_append (n t : List Char) : startsWithL n (n ++ t) = true := by
  induction n with
  | nil => rfl
  | cons a as ih => simp [startsWithL, ih]

theorem containsL_append_left (n a h : List Char) (hc : containsL n h = true) :
    containsL n (a ++ h) = true := by
  induction a with
  | nil => simpa using hc
  | cons x xs ih => simp [containsL, ih]

theorem containsL_of_startsWithL (n h : List Char) (hs : startsWithL n h = true) :
    containsL n h = true := by
  cases h with
  | nil => cases n with
    | nil => rfl
    | cons a as => simp [startsWithL] at hs
  | cons b bs => simp [containsL, hs]

theorem containsL_middle (a n t : List Char) : containsL n (a ++ (n ++ t)) = true :=
  containsL_append_left n a (n ++ t)
    (containsL_of_startsWithL n (n ++ t) (startsWithL_self_append n t))

/-! ### Errors -/

/-- A thrown JavaScript `Error`; only its `message` is observable to the
catch-all handlers (`error instanceof Error ? error.message : …`). -/
structure AppError where
  message : String
deriving DecidableEq

/-! ### Data model: the `plaid_items` table (src/unnamed/part_000) -/

/-- One row of `plaid_items`: `user_id`, `item_id` (the external Plaid item id),
the stored access token (encrypted by the write path), institution columns and
`status` (`active`, `error` or `revoked`; the DDL default is `active`). -/
structure Item where
  userId : String
  itemId : String
  accessToken : String
  institutionId : Option String
  institutionName : Option String
  status : String
deriving DecidableEq

/-- The table invariant from the DDL: `UNIQUE(user_id, item_id)` — no two rows
share the same (userId, itemId) pair. -/
def uniqueUserItem (tbl : List Item) : Prop :=
  List.Pairwise (fun a b => ¬(a.userId = b.userId ∧ a.itemId = b.itemId)) tbl

instance (tbl : List Item) : Decidable (uniqueUserItem tbl) :=
  List.instDecidablePairwise tbl

/-- Insert semantics of a table carrying `UNIQUE(user_id, item_id)`
(src/unnamed/part_000 line 16): an insert that would create a second row with
the same (user_id, item_id) is rejected with a unique-violation error. -/
def insertPlaidItem (tbl : List Item) (it : Item) : Except AppError (List Item) :=
  if tbl.any fun r => r.userId == it.userId && r.itemId == it.itemId then
    .error ⟨"DuplicateItem"⟩
  else
    .ok (it :: tbl)

/-- Modelled from the spec: `UserService.savePlaidItem` is not under src/ (only
its callers are). Per §4.4 Item Store, `createItem` encrypts the plaintext
token via the Credential Cipher and then inserts, and a violation of the
(userId, externalItemId) uniqueness invariant yields `DuplicateItem`; the row
is created with status `active` (§3 lifecycle, matching the DDL default). -/
def savePlaidItem (encrypt : String → String) (tbl : List Item)
    (userId itemId accessToken : String)
    (institutionId institutionName : Option String) : Except AppError (List Item) :=
  insertPlaidItem tbl
    { userId := userId, itemId := itemId, accessToken := encrypt accessToken,
      institutionId := institutionId, institutionName := institutionName,
      status := "active" }

/-- Modelled from the spec: `UserService.getUserPlaidItems` is not under src/.
Per §4.4 Item Store, `getUserItems(userId, activeOnly)` returns the user's
items, restricted to status `active` when `activeOnly` is set. -/
def getUserPlaidItems (tbl : List Item) (userId : String) (activeOnly : Bool) :
    List Item :=
  tbl.filter fun r => r.userId == userId && (!activeOnly || r.status == "active")

/-! ### Subscription plan query (actions.ts 71-89) -/

/-- One row of the `subscription` table as read by the quota query. -/
structure SubRow where
  referenceId : String
  plan : String
  status : String
  periodStart : Nat
deriving DecidableEq

/-- The query `SELECT plan FROM subscription WHERE reference_id = $1 AND status
IN ('active','trialing') ORDER BY period_start DESC LIMIT 1` (actions.ts
71-78): the filtered row with the greatest `period_start` (first seen wins a
tie, a deterministic refinement of the unspecified SQL tie order). -/
def queryLatestSub (rows : List SubRow) (userId : String) : Option SubRow :=
  (rows.filter fun r =>
      r.referenceId == userId && (r.status == "active" || r.status == "trialing")).foldl
    (fun acc r =>
      match acc with
      | none => some r
      | some a => if a.periodStart < r.periodStart then some r else some a)
    none

/-- `const plan = subscription?.plan || 'basic'` (actions.ts 81): the plan of
the newest active/trialing row, defaulting to `'basic'` when there is no such
row or its plan is the falsy empty string. -/
def planOf (rows : List SubRow) (userId : String) : String :=
  match queryLatestSub rows userId with
  | none => "basic"
  | some r => if r.plan = "" then "basic" else r.plan

/-- The `planLimits` record lookup (actions.ts 84-88). -/
def planLimitsLookup (plan : String) : Option Nat :=
  if plan = "basic" then some 3
  else if plan = "pro" then some 10
  else if plan = "enterprise" then some 999999
  else none

/-- `const maxAccounts = planLimits[plan] ?? 3` (actions.ts 89). -/
def maxAccountsFor (plan : String) : Nat :=
  (planLimitsLookup plan).getD 3

/-! ### Plaid service wrappers (src/lib/services/plaid-service.ts) -/

/-- The payload of a successful `linkTokenCreate` call. -/
structure LinkTokenData where
  link_token : String
  expiration : String
deriving DecidableEq

/-- The payload of a successful `itemPublicTokenExchange` call. -/
structure ExchangeData where
  access_token : String
  item_id : String
deriving DecidableEq

namespace PlaidService

/-- `createLinkToken` (plaid-service.ts 26-46): forwards the Plaid client's
response, and rethrows a client failure as
`Failed to create link token: ${error.message}` (lines 42-45). `raw` is the
external Plaid client call for the given user. -/
def createLinkToken (raw : String → Except AppError LinkTokenData)
    (userId : String) : Except AppError LinkTokenData :=
  match raw userId with
  | .ok d => .ok d
  | .error e => .error ⟨"Failed to create link token: " ++ e.message⟩

/-- `exchangePublicToken` (plaid-service.ts 53-68): forwards the Plaid client's
response, and rethrows a client failure as
`Failed to exchange public token: ${error.message}` (lines 64-67). -/
def exchangePublicToken (raw : String → Except AppError ExchangeData)
    (publicToken : String) : Except AppError ExchangeData :=
  match raw publicToken with
  | .ok d => .ok d
  | .error e => .error ⟨"Failed to exchange public token: " ++ e.message⟩

end PlaidService

/-! ### The connect-bank server actions (src/app/connect-bank/actions.ts) -/

/-- `LinkTokenResult` (actions.ts 10-12). -/
inductive LinkTokenResult
  | ok (linkToken : String) (expiration : String)
  | err (error : String)
deriving DecidableEq

/-- `ExchangeTokenResult` (actions.ts 14-16); `institutionName` is
`string | null | undefined`, modelled as `Option String`. -/
inductive ExchangeTokenResult
  | ok (itemId : String) (institutionName : Option String)
  | failure (error : String)
deriving DecidableEq

/-- `PlaidMetadata` (actions.ts 18-23): the optional institution object. -/
structure PlaidMetadata where
  institutionId : Option String
  institutionName : Option String
deriving DecidableEq

/-- `metadata?.institution?.institution_id || undefined` (actions.ts 170-171):
a missing or falsy (empty) string collapses to `undefined`. -/
def normOpt : Option String → Option String
  | none => none
  | some s => if s = "" then none else some s

/-- The environment of `createPlaidLinkToken`: the resolved MCP session (an
external-authority call that may itself throw), the `hasActiveSubscription`
helper (not under src/; per spec §4.5 step 2 it reports whether the user has
an active or trialing subscription), the current tables, and the raw Plaid
client. -/
structure LinkEnv where
  mcpSession : Except AppError (Option String)
  hasActiveSub : String → Bool
  items : List Item
  subs : List SubRow
  linkRaw : String → Except AppError LinkTokenData

/-- The observable outcome of `createPlaidLinkToken`: the returned result and
whether the external Plaid API was invoked. -/
structure LinkOutcome where
  result : LinkTokenResult
  plaidCalled : Bool
deriving DecidableEq

/-- The quota error message template (actions.ts 94). -/
def quotaMessage (maxAccounts : Nat) : String :=
  "Account limit reached. Your plan allows " ++ toString maxAccounts ++
    " bank account(s). Please upgrade or remove an existing connection."

/-- `createPlaidLinkToken` (actions.ts 25-116): authentication via the MCP
session, subscription check, quota check against the user's active items and
plan, then the Plaid link-token call; any thrown `Error` is caught and
returned as `{ success: false, error: error.message }`. -/
def createPlaidLinkToken (env : LinkEnv) : LinkOutcome :=
  match env.mcpSession with
  | .error e => ⟨.err e.message, false⟩
  | .ok none =>
    ⟨.err "Authentication required. Please sign in first through ChatGPT.", false⟩
  | .ok (some userId) =>
    if env.hasActiveSub userId = false then
      ⟨.err "Active subscription required. Please subscribe first.", false⟩
    else if maxAccountsFor (planOf env.subs userId) ≤
        (getUserPlaidItems env.items userId true).length then
      ⟨.err (quotaMessage (maxAccountsFor (planOf env.subs userId))), false⟩
    else
      match PlaidService.createLinkToken env.linkRaw userId with
      | .ok d => ⟨.ok d.link_token d.expiration, true⟩
      | .error e => ⟨.err e.message, true⟩

/-- The environment of `exchangePlaidPublicToken` (actions.ts): the resolved
MCP session, the `hasActiveSubscription` helper, the raw Plaid exchange call,
the credential cipher used by `savePlaidItem`, the current items table, and
whether the email side effect (actions.ts 188-228) throws. -/
structure ExchEnv where
  mcpSession : Except AppError (Option String)
  hasActiveSub : String → Bool
  exchangeRaw : String → Except AppError ExchangeData
  encrypt : String → String
  items : List Item
  emailFails : Bool

/-- The observable outcome of `exchangePlaidPublicToken`: the returned result
and the items table after the call. -/
structure ExchOutcome where
  result : ExchangeTokenResult
  items : List Item
deriving DecidableEq

/-- `exchangePlaidPublicToken` (actions.ts 118-242): authentication,
subscription check, missing-token check, Plaid exchange, `savePlaidItem`,
then a best-effort email whose failure is caught (`Don't throw - email
failure shouldn't block connection`, actions.ts 225-228); any other thrown
`Error` is caught by the outer handler and returned as
`{ success: false, error: error.message }` with no further writes. -/
def exchangePlaidPublicToken (env : ExchEnv) (publicToken : String)
    (md : PlaidMetadata) : ExchOutcome :=
  match env.mcpSession with
  | .error e => ⟨.failure e.message, env.items⟩
  | .ok none =>
    ⟨.failure "Authentication required. Please sign in first through ChatGPT.",
      env.items⟩
  | .ok (some userId) =>
    if env.hasActiveSub userId = false then
      ⟨.failure "Active subscription required. Please subscribe first.", env.items⟩
    else if publicToken = "" then
      ⟨.failure "Missing public token", env.items⟩
    else
      match PlaidService.exchangePublicToken env.exchangeRaw publicToken with
      | .error e => ⟨.failure e.message, env.items⟩
      | .ok d =>
        let institutionId := normOpt md.institutionId
        let institutionName := normOpt md.institutionName
        match savePlaidItem env.encrypt env.items userId d.item_id d.access_token
            institutionId institutionName with
        | .error e => ⟨.failure e.message, env.items⟩
        | .ok items2 =>
          let emailAttempt : Except AppError Unit :=
            if env.emailFails then .error ⟨"email send failed"⟩ else .ok ()
          match emailAttempt with
          | .ok _ => ⟨.ok d.item_id institutionName, items2⟩
          | .error _ => ⟨.ok d.item_id institutionName, items2⟩

/-! ### The alternative server actions (src/unnamed/part_003) -/

namespace Alt

/-- `PlaidInstitution` (part_003 6-9). -/
structure PlaidInstitution where
  id : Option String
  name : Option String
deriving DecidableEq

/-- The result type of the part_003 actions: `{ success: true }` or
`{ success: false, error }`. -/
inductive AltResult
  | ok
  | failure (error : String)
deriving DecidableEq

/-- The environment of the part_003 action: the raw Plaid exchange call, the
cipher used by `savePlaidItem`, and the items table. -/
structure AltEnv where
  exchangeRaw : String → Except AppError ExchangeData
  encrypt : String → String
  items : List Item

/-- The observable outcome of the part_003 action: the result, the items table
after the call, and which collaborators were invoked. -/
structure AltOutcome where
  result : AltResult
  items : List Item
  exchangeCalled : Bool
  saveCalled : Bool
deriving DecidableEq

/-- `exchangePlaidPublicToken` (part_003 35-52): rejects an empty `userId`,
otherwise exchanges the public token and saves the item for that `userId`
directly — there is no session, subscription or quota check; any thrown error
is caught and returned as the constant message
`Failed to exchange Plaid public token`. The institution fields are passed to
`savePlaidItem` unnormalized. -/
def exchangePlaidPublicToken (env : AltEnv) (userId publicToken : String)
    (institution : PlaidInstitution) : AltOutcome :=
  if userId = "" then
    ⟨.failure "User ID is required", env.items, false, false⟩
  else
    match PlaidService.exchangePublicToken env.exchangeRaw publicToken with
    | .error _ =>
      ⟨.failure "Failed to exchange Plaid public token", env.items, true, false⟩
    | .ok d =>
      match savePlaidItem env.encrypt env.items userId d.item_id d.access_token
          institution.id institution.name with
      | .error _ =>
        ⟨.failure "Failed to exchange Plaid public token", env.items, true, true⟩
      | .ok items2 => ⟨.ok, items2, true, true⟩

end Alt

/-! ### The ephemeral session cache (src/lib/services/session-service.ts) -/

namespace SessionSvc

/-- `UserSession` (session-service.ts 10-16); `Date` values are modelled as
millisecond timestamps. -/
structure UserSession where
  sessionId : String
  accessToken : String
  itemId : String
  createdAt : Nat
  lastAccessedAt : Nat
deriving DecidableEq

/-- The `Map<string, UserSession>` backing the service, as an association list
with unique keys in insertion order. -/
abbrev SessionMap := List (String × UserSession)

/-- `Map.prototype.get`. -/
def mapLookup (m : SessionMap) (k : String) : Option UserSession :=
  match m with
  | [] => none
  | (k', v) :: rest => if k' = k then some v else mapLookup rest k

/-- `Map.prototype.set`: replaces the entry in place when the key exists,
appends otherwise. -/
def mapSet (m : SessionMap) (k : String) (v : UserSession) : SessionMap :=
  match m with
  | [] => [(k, v)]
  | (k', v') :: rest =>
    if k' = k then (k, v) :: rest else (k', v') :: mapSet rest k v

/-- `Map.prototype.delete` on the entries. -/
def mapErase (m : SessionMap) (k : String) : SessionMap :=
  m.filter fun p => !(p.1 == k)

/-- `createSession` (session-service.ts 24-40). `generateSessionId` draws 32
random bytes (line 100-102); the drawn id is passed in as `sessionId`, and the
claims assume it is fresh. `now` is the current clock reading used for both
`createdAt` and `lastAccessedAt`. -/
def createSession (m : SessionMap) (sessionId accessToken itemId : String)
    (now : Nat) : String × SessionMap :=
  (sessionId,
    mapSet m sessionId
      ⟨sessionId, accessToken, itemId, now, now⟩)

/-- `getAccessToken` (session-service.ts 45-57): returns `null` for an unknown
session, otherwise updates `lastAccessedAt` on the stored session object and
returns its access token. -/
def getAccessToken (m : SessionMap) (sessionId : String) (now : Nat) :
    Option String × SessionMap :=
  match mapLookup m sessionId with
  | none => (none, m)
  | some s =>
    (some s.accessToken, mapSet m sessionId { s with lastAccessedAt := now })

/-- `isValidSession` (session-service.ts 62-64). -/
def isValidSession (m : SessionMap) (sessionId : String) : Bool :=
  (mapLookup m sessionId).isSome

/-- `deleteSession` (session-service.ts 69-77): returns whether an entry was
removed, with the map after removal. -/
def deleteSession (m : SessionMap) (sessionId : String) : Bool × SessionMap :=
  ((mapLookup m sessionId).isSome, mapErase m sessionId)

/-- `cleanupOldSessions` (session-service.ts 108-128): removes every session
whose age `now - lastAccessedAt` exceeds `maxAgeInDays` in milliseconds, and
returns the number removed. -/
def cleanupOldSessions (m : SessionMap) (maxAgeInDays : Nat) (now : Nat) :
    Nat × SessionMap :=
  let maxAge := maxAgeInDays * 24 * 60 * 60 * 1000
  let kept := m.filter fun p => decide (now - p.2.lastAccessedAt ≤ maxAge)
  (m.length - kept.length, kept)

end SessionSvc

/-! ### Claim C1 -/

/-- C1: for all users U and external item ids I, at most one `plaid_items` row
with (userId = U, itemId = I) exists; the insert performed when persisting a
successful public-token exchange (`savePlaidItem`) preserves this uniqueness:
if the table satisfies the invariant and the insert succeeds, the resulting
table satisfies it too (a violating insert is rejected by the
`UNIQUE(user_id, item_id)` constraint). -/
theorem savePlaidItem_preserves_uniqueUserItem
    (encrypt : String → String) (tbl tbl' : List Item)
    (userId itemId accessToken : String) (instId instName : Option String)
    (hu : uniqueUserItem tbl)
    (hok : savePlaidItem encrypt tbl userId itemId accessToken instId instName =
      .ok tbl') :
    uniqueUserItem tbl' := by
  simp only [savePlaidItem, insertPlaidItem] at hok
  split at hok
  · exact (Except.noConfusion hok)
  · rename_i hne
    injection hok with hok
    subst hok
    refine List.Pairwise.cons ?_ hu
    intro b hb hcontra
    apply hne
    rw [List.any_eq_true]
    refine ⟨b, hb, ?_⟩
    simp only [Bool.and_eq_true, beq_iff_eq]
    exact ⟨hcontra.1.symm, hcontra.2.symm⟩

/-- Witness for C1 at a concrete table: inserting a second item id for the
same user through `savePlaidItem` keeps the (userId, itemId) pairs unique. -/
theorem savePlaidItem_preserves_uniqueUserItem_witness :
    uniqueUserItem
      [⟨"u1", "i2", "tok2", none, none, "active"⟩,
       ⟨"u1", "i1", "tok1", none, none, "active"⟩] :=
  savePlaidItem_preserves_uniqueUserItem id
    [⟨"u1", "i1", "tok1", none, none, "active"⟩]
    [⟨"u1", "i2", "tok2", none, none, "active"⟩,
     ⟨"u1", "i1", "tok1", none, none, "active"⟩]
    "u1" "i2" "tok2" none none (by decide) rfl

/-! ### Claim C2 -/

/-- C2: the Plaid link-token call is made only when the authentication check,
the subscription check and the quota check have all passed; and with an
unauthenticated bearer (the session authority resolves no session) the action
returns the authentication failure and the external banking API is never
invoked. -/
theorem createPlaidLinkToken_checks_before_call (env : LinkEnv) :
    ((createPlaidLinkToken env).plaidCalled = true →
      ∃ u, env.mcpSession = .ok (some u) ∧ env.hasActiveSub u = true ∧
        (getUserPlaidItems env.items u true).length <
          maxAccountsFor (planOf env.subs u)) ∧
    (env.mcpSession = .ok none →
      createPlaidLinkToken env =
        ⟨.err "Authentication required. Please sign in first through ChatGPT.",
          false⟩) := by
  constructor
  · intro hcall
    match hsess : env.mcpSession with
    | .error e =>
      simp only [createPlaidLinkToken, hsess] at hcall
      exact absurd hcall (by simp)
    | .ok none =>
      simp only [createPlaidLinkToken, hsess] at hcall
      exact absurd hcall (by simp)
    | .ok (some u) =>
      simp only [createPlaidLinkToken, hsess] at hcall
      have hsub : env.hasActiveSub u = true := by
        cases hh : env.hasActiveSub u
        · rw [if_pos hh] at hcall
          exact absurd hcall (by simp)
        · rfl
      have hf : ¬(env.hasActiveSub u = false) := by simp [hsub]
      rw [if_neg hf] at hcall
      have hq : (getUserPlaidItems env.items u true).length <
          maxAccountsFor (planOf env.subs u) := by
        by_contra h
        rw [if_pos (Nat.le_of_not_lt h)] at hcall
        exact absurd hcall (by simp)
      exact ⟨u, rfl, hsub, hq⟩
  · intro hnone
    unfold createPlaidLinkToken
    rw [hnone]

/-- Witness for C2: a passing environment shows the gated call implies all
three checks passed, and an unauthenticated environment returns the
authentication failure without a Plaid call. -/
theorem createPlaidLinkToken_checks_before_call_witness :
    (∃ u, (LinkEnv.mk (.ok (some "u1")) (fun _ => true) [] []
        (fun _ => .ok ⟨"lt", "exp"⟩)).mcpSession = .ok (some u) ∧
      (fun (_ : String) => true) u = true ∧
      (getUserPlaidItems ([] : List Item) u true).length <
        maxAccountsFor (planOf [] u)) ∧
    createPlaidLinkToken
        (LinkEnv.mk (.ok none) (fun _ => false) [] [] (fun _ => .error ⟨"x"⟩)) =
      ⟨.err "Authentication required. Please sign in first through ChatGPT.",
        false⟩ := by
  constructor
  · exact (createPlaidLinkToken_checks_before_call
      (LinkEnv.mk (.ok (some "u1")) (fun _ => true) [] []
        (fun _ => .ok ⟨"lt", "exp"⟩))).1 rfl
  · exact (createPlaidLinkToken_checks_before_call
      (LinkEnv.mk (.ok none) (fun _ => false) [] [] (fun _ => .error ⟨"x"⟩))).2 rfl

/-! ### Claim C3 -/

/-- C3: the plan-to-limit map sends `basic` to 3, `pro` to 10 and `enterprise`
to 999999, an absent active/trialing subscription row defaults to `basic`, and
for an authenticated, subscribed basic user the quota boundary is sharp: with
exactly 3 active items the 4th link attempt is rejected with the quota error
and no Plaid call, while with 2 active items the 3rd attempt reaches Plaid and
succeeds when Plaid does. -/
theorem createPlaidLinkToken_quota_boundary :
    (planLimitsLookup "basic" = some 3 ∧ planLimitsLookup "pro" = some 10 ∧
      planLimitsLookup "enterprise" = some 999999) ∧
    (∀ rows u, queryLatestSub rows u = none → planOf rows u = "basic") ∧
    (∀ env u, env.mcpSession = .ok (some u) → env.hasActiveSub u = true →
      planOf env.subs u = "basic" →
      (((getUserPlaidItems env.items u true).length = 3 →
        createPlaidLinkToken env = ⟨.err (quotaMessage 3), false⟩) ∧
       ((getUserPlaidItems env.items u true).length = 2 →
        ∀ d, env.linkRaw u = .ok d →
          createPlaidLinkToken env = ⟨.ok d.link_token d.expiration, true⟩))) := by
  refine ⟨⟨rfl, rfl, rfl⟩, ?_, ?_⟩
  · intro rows u hnone
    unfold planOf
    rw [hnone]
  · intro env u hsess hsub hplan
    have hf : ¬(env.hasActiveSub u = false) := by simp [hsub]
    have hmax : maxAccountsFor (planOf env.subs u) = 3 := by rw [hplan]; rfl
    constructor
    · intro h3
      simp only [createPlaidLinkToken, hsess]
      rw [if_neg hf, hmax, h3, if_pos (by decide)]
    · intro h2 d hd
      simp only [createPlaidLinkToken, hsess]
      rw [if_neg hf, hmax, h2, if_neg (by decide)]
      simp only [PlaidService.createLinkToken, hd]

/-- Witness for C3: concrete basic-plan environments with 3 and 2 active
items exercise both sides of the quota boundary. -/
theorem createPlaidLinkToken_quota_boundary_witness :
    createPlaidLinkToken
        (LinkEnv.mk (.ok (some "u1")) (fun _ => true)
          [⟨"u1", "i1", "t1", none, none, "active"⟩,
           ⟨"u1", "i2", "t2", none, none, "active"⟩,
           ⟨"u1", "i3", "t3", none, none, "active"⟩]
          [⟨"u1", "basic", "active", 0⟩] (fun _ => .ok ⟨"lt", "exp"⟩)) =
      ⟨.err (quotaMessage 3), false⟩ ∧
    createPlaidLinkToken
        (LinkEnv.mk (.ok (some "u1")) (fun _ => true)
          [⟨"u1", "i1", "t1", none, none, "active"⟩,
           ⟨"u1", "i2", "t2", none, none, "active"⟩]
          [⟨"u1", "basic", "active", 0⟩] (fun _ => .ok ⟨"lt", "exp"⟩)) =
      ⟨.ok "lt" "exp", true⟩ := by
  constructor
  · exact ((createPlaidLinkToken_quota_boundary.2.2
      (LinkEnv.mk (.ok (some "u1")) (fun _ => true)
        [⟨"u1", "i1", "t1", none, none, "active"⟩,
         ⟨"u1", "i2", "t2", none, none, "active"⟩,
         ⟨"u1", "i3", "t3", none, none, "active"⟩]
        [⟨"u1", "basic", "active", 0⟩] (fun _ => .ok ⟨"lt", "exp"⟩))
      "u1" rfl rfl (by decide)).1 (by decide))
  · exact ((createPlaidLinkToken_quota_boundary.2.2
      (LinkEnv.mk (.ok (some "u1")) (fun _ => true)
        [⟨"u1", "i1", "t1", none, none, "active"⟩,
         ⟨"u1", "i2", "t2", none, none, "active"⟩]
        [⟨"u1", "basic", "active", 0⟩] (fun _ => .ok ⟨"lt", "exp"⟩))
      "u1" rfl rfl (by decide)).2 (by decide) ⟨"lt", "exp"⟩ rfl)

/-! ### Claim C4 -/

theorem quotaMessage_data (m : Nat) :
    (quotaMessage m).data =
      "Account limit reached. Your plan allows ".data ++
        ((toString m).data ++
          " bank account(s). Please upgrade or remove an existing connection.".data) := by
  unfold quotaMessage
  rw [String.data_append, String.data_append, List.append_assoc]

theorem quotaMessage_contains_limit (m : Nat) :
    containsL (toString m).data (quotaMessage m).data = true := by
  rw [quotaMessage_data]
  exact containsL_middle _ _ _

/-- A basic-plan environment in which the user has 5 active items, so the
current count (5) differs from every digit occurring in the quota message. -/
def envOverQuota : LinkEnv :=
  ⟨.ok (some "u1"), fun _ => true,
    [⟨"u1", "i1", "t1", none, none, "active"⟩,
     ⟨"u1", "i2", "t2", none, none, "active"⟩,
     ⟨"u1", "i3", "t3", none, none, "active"⟩,
     ⟨"u1", "i4", "t4", none, none, "active"⟩,
     ⟨"u1", "i5", "t5", none, none, "active"⟩],
    [⟨"u1", "basic", "active", 0⟩],
    fun _ => .ok ⟨"lt", "exp"⟩⟩

/-- Counterexample to C4: for a basic user with 5 active items the quota
rejection message is the fixed template carrying only the plan limit (3); the
user's current active-item count (5) does not occur anywhere in the message
returned to the caller. -/
theorem quota_message_lacks_count_cex :
    (createPlaidLinkToken envOverQuota).result = .err (quotaMessage 3) ∧
    (getUserPlaidItems envOverQuota.items "u1" true).length = 5 ∧
    containsL
      (toString (getUserPlaidItems envOverQuota.items "u1" true).length).data
      (quotaMessage 3).data = false := by
  refine ⟨rfl, rfl, ?_⟩
  decide

/-- C4 as amended: when the quota check rejects, the returned message is the
fixed template `quotaMessage maxAccounts`, which contains the plan's limit;
the current active-item count is not interpolated into it. -/
theorem createPlaidLinkToken_quota_message (env : LinkEnv) (u : String)
    (hsess : env.mcpSession = .ok (some u)) (hsub : env.hasActiveSub u = true)
    (hover : maxAccountsFor (planOf env.subs u) ≤
      (getUserPlaidItems env.items u true).length) :
    createPlaidLinkToken env =
      ⟨.err (quotaMessage (maxAccountsFor (planOf env.subs u))), false⟩ ∧
    containsL (toString (maxAccountsFor (planOf env.subs u))).data
      (quotaMessage (maxAccountsFor (planOf env.subs u))).data = true := by
  constructor
  · simp only [createPlaidLinkToken, hsess]
    rw [if_neg (by simp [hsub]), if_pos hover]
  · exact quotaMessage_contains_limit _

/-- Witness for the amended C4 at the concrete over-quota environment. -/
theorem createPlaidLinkToken_quota_message_witness :
    createPlaidLinkToken envOverQuota =
      ⟨.err (quotaMessage (maxAccountsFor (planOf envOverQuota.subs "u1"))), false⟩ ∧
    containsL (toString (maxAccountsFor (planOf envOverQuota.subs "u1"))).data
      (quotaMessage (maxAccountsFor (planOf envOverQuota.subs "u1"))).data = true :=
  createPlaidLinkToken_quota_message envOverQuota "u1" rfl rfl (by decide)

/-! ### Claim C5 -/

/-- An environment in which user `u1` already has the item `i1` connected, so
persisting the freshly exchanged credential for `i1` hits the uniqueness
constraint. -/
def envDup : ExchEnv :=
  ⟨.ok (some "u1"), fun _ => true, fun _ => .ok ⟨"at1", "i1"⟩, id,
    [⟨"u1", "i1", "enc", none, none, "active"⟩], false⟩

/-- An environment in which the external session authority itself throws an
error whose message happens to read `DuplicateItem`; nothing is exchanged or
persisted. -/
def envAuthThrow : ExchEnv :=
  ⟨.error ⟨"DuplicateItem"⟩, fun _ => true, fun _ => .ok ⟨"at1", "i1"⟩, id,
    [⟨"u1", "i1", "enc", none, none, "active"⟩], false⟩

/-- Counterexample to C5: a call that actually hits the (userId, itemId)
uniqueness constraint during persistence returns an outcome byte-identical to
a call in which the session authority threw before any check ran — the
duplicate is reported through the same generic catch-all
`{ success: false, error: error.message }` as every other thrown error, so the
caller receives no distinguishable AlreadyConnected result. -/
theorem exchange_duplicate_indistinguishable_cex :
    exchangePlaidPublicToken envDup "pt" ⟨none, none⟩ =
      exchangePlaidPublicToken envAuthThrow "pt" ⟨none, none⟩ ∧
    savePlaidItem envDup.encrypt envDup.items "u1" "i1" "at1" none none =
      .error ⟨"DuplicateItem"⟩ ∧
    exchangePlaidPublicToken envDup "pt" ⟨none, none⟩ =
      ⟨.failure "DuplicateItem", envDup.items⟩ :=
  ⟨rfl, rfl, rfl⟩

/-- C5 as amended: when persistence hits the uniqueness constraint, the action
returns the generic failure result whose error string is the underlying
error's message, with the items table unchanged; the result carries no
dedicated AlreadyConnected discriminant. -/
theorem exchange_duplicate_generic_failure (env : ExchEnv) (pt : String)
    (md : PlaidMetadata) (u : String) (d : ExchangeData)
    (hsess : env.mcpSession = .ok (some u)) (hsub : env.hasActiveSub u = true)
    (hpt : ¬(pt = "")) (hex : env.exchangeRaw pt = .ok d)
    (hdup : savePlaidItem env.encrypt env.items u d.item_id d.access_token
        (normOpt md.institutionId) (normOpt md.institutionName) =
      .error ⟨"DuplicateItem"⟩) :
    exchangePlaidPublicToken env pt md = ⟨.failure "DuplicateItem", env.items⟩ := by
  simp only [exchangePlaidPublicToken, hsess]
  rw [if_neg (by simp [hsub]), if_neg hpt]
  simp only [PlaidService.exchangePublicToken, hex, hdup]

/-- Witness for the amended C5 at the concrete duplicate environment. -/
theorem exchange_duplicate_generic_failure_witness :
    exchangePlaidPublicToken envDup "pt" ⟨none, none⟩ =
      ⟨.failure "DuplicateItem", envDup.items⟩ :=
  exchange_duplicate_generic_failure envDup "pt" ⟨none, none⟩ "u1" ⟨"at1", "i1"⟩
    rfl rfl (by decide) rfl rfl

/-! ### Claim C6 -/

/-- An environment in which the Plaid client rejects the link-token call with
a provider-internal error message. -/
def envProviderErr : LinkEnv :=
  ⟨.ok (some "u1"), fun _ => true, [], [],
    fun _ => .error ⟨"PROVIDER_INTERNAL_DETAIL"⟩⟩

/-- Counterexample to C6: when the Plaid client fails, the message returned to
the caller is `Failed to create link token: ${error.message}`
(plaid-service.ts 44 surfaced through the catch-all in actions.ts 109-115),
which contains the provider's error message verbatim — the caller-visible
message is not sanitized of provider internals. -/
theorem link_error_message_leaks_provider_cex :
    (createPlaidLinkToken envProviderErr).result =
      .err "Failed to create link token: PROVIDER_INTERNAL_DETAIL" ∧
    containsL "PROVIDER_INTERNAL_DETAIL".data
      "Failed to create link token: PROVIDER_INTERNAL_DETAIL".data = true :=
  ⟨rfl, by decide⟩

/-- C6 as amended: a third-party failure during link-token creation or
public-token exchange is wrapped with a fixed prefix and the provider error's
message, and exactly that wrapped string is returned to the caller (the
original error object itself is only logged). -/
theorem thirdparty_error_message_wrapped :
    (∀ (env : LinkEnv) (u : String) (e : AppError),
      env.mcpSession = .ok (some u) → env.hasActiveSub u = true →
      (getUserPlaidItems env.items u true).length <
        maxAccountsFor (planOf env.subs u) →
      env.linkRaw u = .error e →
      createPlaidLinkToken env =
        ⟨.err ("Failed to create link token: " ++ e.message), true⟩) ∧
    (∀ (env : ExchEnv) (pt : String) (md : PlaidMetadata) (u : String)
        (e : AppError),
      env.mcpSession = .ok (some u) → env.hasActiveSub u = true →
      ¬(pt = "") → env.exchangeRaw pt = .error e →
      exchangePlaidPublicToken env pt md =
        ⟨.failure ("Failed to exchange public token: " ++ e.message),
          env.items⟩) := by
  constructor
  · intro env u e hsess hsub hq hraw
    simp only [createPlaidLinkToken, hsess]
    rw [if_neg (by simp [hsub]), if_neg (Nat.not_le_of_lt hq)]
    simp only [PlaidService.createLinkToken, hraw]
  · intro env pt md u e hsess hsub hpt hraw
    simp only [exchangePlaidPublicToken, hsess]
    rw [if_neg (by simp [hsub]), if_neg hpt]
    simp only [PlaidService.exchangePublicToken, hraw]

/-- Witness for the amended C6: concrete provider failures on both the
link-token and exchange paths produce the wrapped messages. -/
theorem thirdparty_error_message_wrapped_witness :
    createPlaidLinkToken envProviderErr =
      ⟨.err ("Failed to create link token: " ++
        (AppError.mk "PROVIDER_INTERNAL_DETAIL").message), true⟩ ∧
    exchangePlaidPublicToken
        (ExchEnv.mk (.ok (some "u1")) (fun _ => true)
          (fun _ => .error ⟨"PROVIDER_X"⟩) id [] false) "pt" ⟨none, none⟩ =
      ⟨.failure ("Failed to exchange public token: " ++
        (AppError.mk "PROVIDER_X").message), []⟩ := by
  constructor
  · exact thirdparty_error_message_wrapped.1 envProviderErr "u1"
      ⟨"PROVIDER_INTERNAL_DETAIL"⟩ rfl rfl (by decide) rfl
  · exact thirdparty_error_message_wrapped.2
      (ExchEnv.mk (.ok (some "u1")) (fun _ => true)
        (fun _ => .error ⟨"PROVIDER_X"⟩) id [] false) "pt" ⟨none, none⟩ "u1"
      ⟨"PROVIDER_X"⟩ rfl rfl (by decide) rfl

/-! ### Claim C7 -/

/-- C7: once the public-token exchange and the item persistence have
succeeded, the confirmation-email side effect cannot change the outcome —
whether the email step throws or not, the action returns the same success and
the persisted items table is exactly the post-persist table (nothing is
rolled back). -/
theorem exchange_email_failure_harmless (env : ExchEnv) (pt : String)
    (md : PlaidMetadata) (u : String) (d : ExchangeData) (items2 : List Item)
    (hsess : env.mcpSession = .ok (some u)) (hsub : env.hasActiveSub u = true)
    (hpt : ¬(pt = "")) (hex : env.exchangeRaw pt = .ok d)
    (hsave : savePlaidItem env.encrypt env.items u d.item_id d.access_token
        (normOpt md.institutionId) (normOpt md.institutionName) = .ok items2) :
    ∀ b : Bool,
      exchangePlaidPublicToken { env with emailFails := b } pt md =
        ⟨.ok d.item_id (normOpt md.institutionName), items2⟩ := by
  intro b
  cases b <;>
  · simp only [exchangePlaidPublicToken, hsess]
    rw [if_neg (by simp [hsub]), if_neg hpt]
    simp only [PlaidService.exchangePublicToken, hex, hsave]
    rfl

/-- A successful exchange environment used to witness C7. -/
def envMail : ExchEnv :=
  ⟨.ok (some "u1"), fun _ => true, fun _ => .ok ⟨"at1", "i1"⟩, id, [], false⟩

/-- Witness for C7: with the email step forced to throw, the call still
returns success and the freshly inserted row is kept. -/
theorem exchange_email_failure_harmless_witness :
    exchangePlaidPublicToken { envMail with emailFails := true } "pt"
        ⟨none, some "Chase"⟩ =
      ⟨.ok "i1" (some "Chase"),
        [⟨"u1", "i1", "at1", none, some "Chase", "active"⟩]⟩ :=
  exchange_email_failure_harmless envMail "pt" ⟨none, some "Chase"⟩ "u1"
    ⟨"at1", "i1"⟩ [⟨"u1", "i1", "at1", none, some "Chase", "active"⟩]
    rfl rfl (by decide) rfl rfl true

/-! ### Claim C8 -/

/-- An environment for the exchange action in which the user already has 3
active items; there is no subscription-plan field at all because the exchange
action never reads the plan or counts items. -/
def envThreeItems : ExchEnv :=
  ⟨.ok (some "u1"), fun _ => true, fun _ => .ok ⟨"at4", "i4"⟩, id,
    [⟨"u1", "i1", "t1", none, none, "active"⟩,
     ⟨"u1", "i2", "t2", none, none, "active"⟩,
     ⟨"u1", "i3", "t3", none, none, "active"⟩], false⟩

/-- C8: the connect-bank `exchangePlaidPublicToken` enforces authentication
and an active subscription, but performs no quota check: a user who already
has 3 active items (the basic-plan limit) still gets a 4th item exchanged and
persisted. -/
theorem exchange_enforces_auth_sub_but_no_quota :
    (∀ (env : ExchEnv) (pt : String) (md : PlaidMetadata),
      env.mcpSession = .ok none →
      exchangePlaidPublicToken env pt md =
        ⟨.failure "Authentication required. Please sign in first through ChatGPT.",
          env.items⟩) ∧
    (∀ (env : ExchEnv) (pt : String) (md : PlaidMetadata) (u : String),
      env.mcpSession = .ok (some u) → env.hasActiveSub u = false →
      exchangePlaidPublicToken env pt md =
        ⟨.failure "Active subscription required. Please subscribe first.",
          env.items⟩) ∧
    ((getUserPlaidItems envThreeItems.items "u1" true).length = 3 ∧
     exchangePlaidPublicToken envThreeItems "pt" ⟨none, none⟩ =
       ⟨.ok "i4" none,
         ⟨"u1", "i4", "at4", none, none, "active"⟩ :: envThreeItems.items⟩ ∧
     (getUserPlaidItems
        (exchangePlaidPublicToken envThreeItems "pt" ⟨none, none⟩).items
        "u1" true).length = 4) := by
  refine ⟨?_, ?_, rfl, rfl, rfl⟩
  · intro env pt md hsess
    simp only [exchangePlaidPublicToken, hsess]
  · intro env pt md u hsess hnosub
    simp only [exchangePlaidPublicToken, hsess]
    rw [if_pos hnosub]

/-- Witness for C8: concrete unauthenticated and unsubscribed calls are
rejected without touching the items table. -/
theorem exchange_enforces_auth_sub_but_no_quota_witness :
    exchangePlaidPublicToken
        (ExchEnv.mk (.ok none) (fun _ => false) (fun _ => .ok ⟨"a", "i"⟩) id []
          false) "pt" ⟨none, none⟩ =
      ⟨.failure "Authentication required. Please sign in first through ChatGPT.",
        []⟩ ∧
    exchangePlaidPublicToken
        (ExchEnv.mk (.ok (some "u2")) (fun _ => false) (fun _ => .ok ⟨"a", "i"⟩)
          id [] false) "pt" ⟨none, none⟩ =
      ⟨.failure "Active subscription required. Please subscribe first.", []⟩ :=
  ⟨exchange_enforces_auth_sub_but_no_quota.1
      (ExchEnv.mk (.ok none) (fun _ => false) (fun _ => .ok ⟨"a", "i"⟩) id []
        false) "pt" ⟨none, none⟩ rfl,
   exchange_enforces_auth_sub_but_no_quota.2.1
      (ExchEnv.mk (.ok (some "u2")) (fun _ => false) (fun _ => .ok ⟨"a", "i"⟩)
        id [] false) "pt" ⟨none, none⟩ "u2" rfl rfl⟩

/-! ### Claim C9 -/

/-- C9: the alternative exported `exchangePlaidPublicToken(userId, publicToken,
institution)` performs no session validation, subscription check or quota
check: an empty `userId` is rejected with no side effects, every non-empty
`userId` goes straight to the token exchange, a successful exchange goes
straight to `savePlaidItem` for that `userId`, and a return with no
collaborator invoked happens only for the empty `userId`. -/
theorem alt_exchange_no_checks (env : Alt.AltEnv) (userId pt : String)
    (inst : Alt.PlaidInstitution) :
    (userId = "" →
      Alt.exchangePlaidPublicToken env userId pt inst =
        ⟨.failure "User ID is required", env.items, false, false⟩) ∧
    (¬(userId = "") →
      (Alt.exchangePlaidPublicToken env userId pt inst).exchangeCalled = true) ∧
    (∀ d, ¬(userId = "") → env.exchangeRaw pt = .ok d →
      (Alt.exchangePlaidPublicToken env userId pt inst).saveCalled = true) ∧
    ((Alt.exchangePlaidPublicToken env userId pt inst).exchangeCalled = false →
      userId = "") := by
  have hcall : ¬(userId = "") →
      (Alt.exchangePlaidPublicToken env userId pt inst).exchangeCalled = true := by
    intro h
    simp only [Alt.exchangePlaidPublicToken]
    rw [if_neg h]
    split
    · rfl
    · split
      · rfl
      · rfl
  refine ⟨?_, hcall, ?_, ?_⟩
  · intro h
    simp only [Alt.exchangePlaidPublicToken]
    rw [if_pos h]
  · intro d h hex
    simp only [Alt.exchangePlaidPublicToken]
    rw [if_neg h]
    simp only [PlaidService.exchangePublicToken, hex]
    split
    · rfl
    · rfl
  · intro hfalse
    by_cases h : userId = ""
    · exact h
    · rw [hcall h] at hfalse
      exact absurd hfalse (by decide)

/-- Witness for C9: a concrete empty-userId call is rejected with no
collaborator invoked, and a concrete non-empty call reaches both the exchange
and the save. -/
theorem alt_exchange_no_checks_witness :
    Alt.exchangePlaidPublicToken
        (Alt.AltEnv.mk (fun _ => .ok ⟨"at1", "i1"⟩) id []) "" "pt" ⟨none, none⟩ =
      ⟨.failure "User ID is required", [], false, false⟩ ∧
    (Alt.exchangePlaidPublicToken
        (Alt.AltEnv.mk (fun _ => .ok ⟨"at1", "i1"⟩) id []) "u1" "pt"
        ⟨none, none⟩).exchangeCalled = true ∧
    (Alt.exchangePlaidPublicToken
        (Alt.AltEnv.mk (fun _ => .ok ⟨"at1", "i1"⟩) id []) "u1" "pt"
        ⟨none, none⟩).saveCalled = true :=
  ⟨(alt_exchange_no_checks (Alt.AltEnv.mk (fun _ => .ok ⟨"at1", "i1"⟩) id [])
      "" "pt" ⟨none, none⟩).1 rfl,
   (alt_exchange_no_checks (Alt.AltEnv.mk (fun _ => .ok ⟨"at1", "i1"⟩) id [])
      "u1" "pt" ⟨none, none⟩).2.1 (by decide),
   (alt_exchange_no_checks (Alt.AltEnv.mk (fun _ => .ok ⟨"at1", "i1"⟩) id [])
      "u1" "pt" ⟨none, none⟩).2.2.1 ⟨"at1", "i1"⟩ (by decide) rfl⟩

/-! ### Claim C10: map lemmas for the session cache -/

namespace SessionSvc

/-- The `Map` key invariant: no two entries share a key. -/
def keysUnique (m : SessionMap) : Prop :=
  List.Pairwise (fun a b => ¬(a.1 = b.1)) m

instance (m : SessionMap) : Decidable (keysUnique m) :=
  List.instDecidablePairwise m

/-- The access token currently stored under a key, if any. -/
def tokenAt (m : SessionMap) (k : String) : Option String :=
  (mapLookup m k).map fun s => s.accessToken

theorem mapLookup_mapSet_self (m : SessionMap) (k : String) (v : UserSession) :
    mapLookup (mapSet m k v) k = some v := by
  induction m with
  | nil => simp [mapSet, mapLookup]
  | cons p rest ih =>
    obtain ⟨a, b⟩ := p
    by_cases ha : a = k
    · simp [mapSet, ha, mapLookup]
    · simp [mapSet, ha, mapLookup, ih]

theorem mapLookup_mapSet_ne (m : SessionMap) (k k' : String) (v : UserSession)
    (h : ¬(k' = k)) : mapLookup (mapSet m k' v) k = mapLookup m k := by
  induction m with
  | nil => simp [mapSet, mapLookup, h]
  | cons p rest ih =>
    obtain ⟨a, b⟩ := p
    by_cases ha : a = k'
    · subst ha
      simp [mapSet, mapLookup, h]
    · simp [mapSet, ha, mapLookup, ih]

theorem mapLookup_eq_none_of_all_ne (m : SessionMap) (k : String)
    (h : ∀ e ∈ m, ¬(e.1 = k)) : mapLookup m k = none := by
  induction m with
  | nil => rfl
  | cons p rest ih =>
    obtain ⟨a, b⟩ := p
    have ha : ¬(a = k) := h (a, b) (by simp)
    simp only [mapLookup, if_neg ha]
    exact ih fun e he => h e (List.mem_cons_of_mem _ he)

theorem mapLookup_mapErase_self (m : SessionMap) (k : String) :
    mapLookup (mapErase m k) k = none := by
  apply mapLookup_eq_none_of_all_ne
  intro e he
  have := List.of_mem_filter he
  simpa using this

theorem mapLookup_mapErase_ne (m : SessionMap) (k k' : String)
    (h : ¬(k' = k)) : mapLookup (mapErase m k') k = mapLookup m k := by
  unfold mapErase
  induction m with
  | nil => rfl
  | cons p rest ih =>
    obtain ⟨a, b⟩ := p
    by_cases ha : a = k'
    · subst ha
      simp [List.filter_cons, mapLookup, h, ih]
    · by_cases hak : a = k
      · subst hak
        simp [List.filter_cons, ha, mapLookup]
      · simp [List.filter_cons, ha, mapLookup, hak, ih]

theorem mapLookup_filter (p : String × UserSession → Bool) (m : SessionMap)
    (k : String) (hu : keysUnique m) :
    mapLookup (m.filter p) k =
      match mapLookup m k with
      | none => none
      | some s => if p (k, s) then some s else none := by
  induction m with
  | nil => rfl
  | cons e rest ih =>
    obtain ⟨a, b⟩ := e
    obtain ⟨hhead, hrest⟩ := List.pairwise_cons.1 hu
    by_cases ha : a = k
    · subst ha
      by_cases hp : p (a, b)
      · simp [List.filter_cons, hp, mapLookup]
      · have hnone : mapLookup (rest.filter p) a = none := by
          apply mapLookup_eq_none_of_all_ne
          intro e he hek
          exact hhead e (List.mem_of_mem_filter he) hek.symm
        simp [List.filter_cons, hp, mapLookup, hnone]
    · by_cases hp : p (a, b)
      · simp [List.filter_cons, hp, mapLookup, ha, ih hrest]
      · simp [List.filter_cons, hp, mapLookup, ha, ih hrest]

end SessionSvc

/-! ### Claim C10 -/

/-- C10: the session cache is a faithful key-value store. Reading through
`getAccessToken` observes exactly the stored token; a `createSession` under a
session id stores that token and makes the session valid; the stored token for
a session survives `createSession` under a different id, any `getAccessToken`
(which only refreshes `lastAccessedAt`), `deleteSession` of a different id,
and a cleanup sweep whose age bound the session meets; and after
`deleteSession` of the id, or a cleanup sweep whose age bound it exceeds, the
token reads back `none` and the session is invalid. -/
theorem sessionService_faithful_kv :
    (∀ (m : SessionSvc.SessionMap) (k : String) (now : Nat),
      (SessionSvc.getAccessToken m k now).1 = SessionSvc.tokenAt m k) ∧
    (∀ (m : SessionSvc.SessionMap) (sid t i : String) (now : Nat),
      SessionSvc.tokenAt (SessionSvc.createSession m sid t i now).2 sid = some t ∧
      SessionSvc.isValidSession (SessionSvc.createSession m sid t i now).2 sid =
        true) ∧
    (∀ (m : SessionSvc.SessionMap) (sid : String),
      (∀ (sid2 t2 i2 : String) (now : Nat), ¬(sid2 = sid) →
        SessionSvc.tokenAt (SessionSvc.createSession m sid2 t2 i2 now).2 sid =
          SessionSvc.tokenAt m sid) ∧
      (∀ (k : String) (now : Nat),
        SessionSvc.tokenAt (SessionSvc.getAccessToken m k now).2 sid =
          SessionSvc.tokenAt m sid) ∧
      (∀ sid2 : String, ¬(sid2 = sid) →
        SessionSvc.tokenAt (SessionSvc.deleteSession m sid2).2 sid =
          SessionSvc.tokenAt m sid) ∧
      (∀ (days now : Nat) (s : SessionSvc.UserSession),
        SessionSvc.keysUnique m → SessionSvc.mapLookup m sid = some s →
        now - s.lastAccessedAt ≤ days * 24 * 60 * 60 * 1000 →
        SessionSvc.tokenAt (SessionSvc.cleanupOldSessions m days now).2 sid =
          some s.accessToken)) ∧
    (∀ (m : SessionSvc.SessionMap) (sid : String),
      SessionSvc.tokenAt (SessionSvc.deleteSession m sid).2 sid = none ∧
      SessionSvc.isValidSession (SessionSvc.deleteSession m sid).2 sid = false) ∧
    (∀ (m : SessionSvc.SessionMap) (sid : String) (days now : Nat)
        (s : SessionSvc.UserSession),
      SessionSvc.keysUnique m → SessionSvc.mapLookup m sid = some s →
      days * 24 * 60 * 60 * 1000 < now - s.lastAccessedAt →
      SessionSvc.tokenAt (SessionSvc.cleanupOldSessions m days now).2 sid =
        none ∧
      SessionSvc.isValidSession (SessionSvc.cleanupOldSessions m days now).2
        sid = false) := by
  refine ⟨?_, ?_, ?_, ?_, ?_⟩
  · intro m k now
    cases h : SessionSvc.mapLookup m k <;>
      simp [SessionSvc.getAccessToken, SessionSvc.tokenAt, h]
  · intro m sid t i now
    constructor
    · simp [SessionSvc.createSession, SessionSvc.tokenAt,
        SessionSvc.mapLookup_mapSet_self]
    · simp [SessionSvc.createSession, SessionSvc.isValidSession,
        SessionSvc.mapLookup_mapSet_self]
  · intro m sid
    refine ⟨?_, ?_, ?_, ?_⟩
    · intro sid2 t2 i2 now hne
      simp [SessionSvc.createSession, SessionSvc.tokenAt,
        SessionSvc.mapLookup_mapSet_ne m sid sid2 _ hne]
    · intro k now
      cases h : SessionSvc.mapLookup m k with
      | none => simp [SessionSvc.getAccessToken, h]
      | some s =>
        by_cases hk : sid = k
        · subst hk
          simp [SessionSvc.getAccessToken, h, SessionSvc.tokenAt,
            SessionSvc.mapLookup_mapSet_self]
        · have hne : ¬(k = sid) := fun hh => hk hh.symm
          simp [SessionSvc.getAccessToken, h, SessionSvc.tokenAt,
            SessionSvc.mapLookup_mapSet_ne m sid k _ hne]
    · intro sid2 hne
      simp [SessionSvc.deleteSession, SessionSvc.tokenAt,
        SessionSvc.mapLookup_mapErase_ne m sid sid2 hne]
    · intro days now s hu hs hle
      have hp : (fun p : String × SessionSvc.UserSession =>
          decide (now - p.2.lastAccessedAt ≤ days * 24 * 60 * 60 * 1000))
            (sid, s) = true := by
        simpa using hle
      simp [SessionSvc.cleanupOldSessions, SessionSvc.tokenAt,
        SessionSvc.mapLookup_filter _ m sid hu, hs, hp]
      omega
  · intro m sid
    constructor
    · simp [SessionSvc.deleteSession, SessionSvc.tokenAt,
        SessionSvc.mapLookup_mapErase_self]
    · simp [SessionSvc.deleteSession, SessionSvc.isValidSession,
        SessionSvc.mapLookup_mapErase_self]
  · intro m sid days now s hu hs hgt
    have hp : (fun p : String × SessionSvc.UserSession =>
        decide (now - p.2.lastAccessedAt ≤ days * 24 * 60 * 60 * 1000))
          (sid, s) = false := by
      simpa using Nat.not_le_of_lt hgt
    constructor
    · simp [SessionSvc.cleanupOldSessions, SessionSvc.tokenAt,
        SessionSvc.mapLookup_filter _ m sid hu, hs, hp]
      omega
    · simp [SessionSvc.cleanupOldSessions, SessionSvc.isValidSession,
        SessionSvc.mapLookup_filter _ m sid hu, hs, hp]
      omega

/-- Witness for C10 on a concrete one-session cache: creation stores the
token, a cleanup within the age bound keeps it, deleting a different id keeps
it, and a cleanup one millisecond past the 30-day bound evicts it. -/
theorem sessionService_faithful_kv_witness :
    SessionSvc.tokenAt
        (SessionSvc.createSession [] "s1" "tok" "it" 5).2 "s1" = some "tok" ∧
    SessionSvc.tokenAt
        (SessionSvc.cleanupOldSessions [("s1", ⟨"s1", "tok", "it", 0, 0⟩)] 30
          2592000000).2 "s1" = some "tok" ∧
    SessionSvc.tokenAt
        (SessionSvc.deleteSession [("s1", ⟨"s1", "tok", "it", 0, 0⟩)] "s2").2
        "s1" = some "tok" ∧
    SessionSvc.tokenAt
        (SessionSvc.cleanupOldSessions [("s1", ⟨"s1", "tok", "it", 0, 0⟩)] 30
          2592000001).2 "s1" = none :=
  ⟨(sessionService_faithful_kv.2.1 [] "s1" "tok" "it" 5).1,
   (sessionService_faithful_kv.2.2.1 [("s1", ⟨"s1", "tok", "it", 0, 0⟩)]
      "s1").2.2.2 30 2592000000 ⟨"s1", "tok", "it", 0, 0⟩ (by decide) rfl
      (by decide),
   by
    rw [(sessionService_faithful_kv.2.2.1 [("s1", ⟨"s1", "tok", "it", 0, 0⟩)]
      "s1").2.2.1 "s2" (by decide)]
    rfl,
   ((sessionService_faithful_kv.2.2.2.2 [("s1", ⟨"s1", "tok", "it", 0, 0⟩)]
      "s1" 30 2592000001 ⟨"s1", "tok", "it", 0, 0⟩ (by decide) rfl
      (by decide))).1⟩

end BankConnect
